import Mathlib

set_option maxRecDepth 16384

/-!
Shallow embedding of the Dutch-Parliament attendance backend
(`src/server.js`): the OData query builder `buildQuery`, the query
construction of the three API routes, and the record flattener
`processAttendanceData`.

JavaScript conventions are modelled explicitly:
* an optional string field is `Option String`; a *falsy* string value is
  `none` (undefined/null) or `some ""` (the empty string);
* `a || b` on strings is `jsOr` / `jsOrD`;
* `Array.prototype.join(sep)` is `joinSep`;
* `new Date(s)` yields a JS `Date` object whose time value is `Option Int`
  (`none` models an Invalid Date, whose `getTime()` is NaN); the ECMAScript
  date parser and the `nl-NL` locale formatters are external library code,
  so they are passed in as a `DateLib` parameter rather than re-implemented;
  `DateLib.parse` may throw (`Except`), mirroring the `try`/`catch` around
  the date block in the source.
-/

/-- JS truthiness of a possibly-absent string: `undefined`, `null` and `""`
are falsy, every other string is truthy. -/
def jsTruthy : Option String → Bool
  | none => false
  | some s => !(s == "")

/-- JS `a || b` on possibly-absent strings, keeping the JS value. -/
def jsOr (a b : Option String) : Option String :=
  if jsTruthy a then a else b

/-- JS `a || d` where the default `d` is a string literal (as in
`activity.Onderwerp || 'Unknown Activity'`). -/
def jsOrD (a : Option String) (d : String) : String :=
  if jsTruthy a then a.getD "" else d

/-- JS `Array.prototype.join(sep)`. -/
def joinSep (sep : String) : List String → String
  | [] => ""
  | [a] => a
  | a :: b :: rest => a ++ sep ++ joinSep sep (b :: rest)

/-- JS `[x, y, z].filter(Boolean)` on optional strings: keep only the
truthy entries, as plain strings. -/
def filterBoolean (parts : List (Option String)) : List String :=
  (parts.filter jsTruthy).map (fun o => o.getD "")

/-- Number of occurrences of the pattern `pat` as a (possibly overlapping)
substring of `l`, counted at each starting position. -/
def countOccList (pat : List Char) : List Char → Nat
  | [] => 0
  | c :: rest =>
      (if pat.isPrefixOf (c :: rest) then 1 else 0) + countOccList pat rest

/-- Substring-occurrence count on strings (used to state "exactly one
`$filter`", "no duplicate parameters", and similar URL facts). -/
def countOccS (s pat : String) : Nat :=
  countOccList pat.data s.data

/-- A single apostrophe character, used inside OData literals such as the
`relatie eq 'Deelnemer'` sub-filter of the statistics route. -/
def squote : String := "\x27"

/-! ## Data model (upstream records, `src/server.js` usage) -/

/-- `Fractie` navigation: parliamentary group with identifier and Dutch
display name (`Id`, `NaamNL`). -/
structure Fractie where
  Id : String
  NaamNL : String
deriving Repr, DecidableEq

/-- `Persoon` navigation: identifier plus the name fields read by the
flattener; every name field may be absent or empty upstream. -/
structure Persoon where
  Id : String
  Voornamen : Option String
  Tussenvoegsel : Option String
  Achternaam : Option String
  Initialen : Option String
deriving Repr, DecidableEq

/-- `ActiviteitActor` record: the association of an activity with a person,
optionally carrying a group reference and a functional role label. -/
structure ActiviteitActor where
  Id : String
  Persoon : Option Persoon
  Fractie : Option Fractie
  Functie : Option String
deriving Repr, DecidableEq

/-- `Activiteit` record as consumed by `processAttendanceData`: identifier,
subject, start timestamp (`Aanvangstijd`) or date-only fallback (`Datum`),
and the actor collection (absent when not expanded). -/
structure Activiteit where
  Id : String
  Onderwerp : Option String
  Aanvangstijd : Option String
  Datum : Option String
  ActiviteitActor : Option (List ActiviteitActor)
deriving Repr, DecidableEq

/-- Flattened output record pushed by `processAttendanceData`
(`src/server.js` lines 346-365). `fractionId` is `none` for the JS `null`. -/
structure AttendanceRecord where
  activityId : String
  activityTitle : String
  activityDate : String
  activityTime : String
  activityDateTime : Option String
  personId : String
  personName : String
  personInitials : String
  personFirstName : String
  personLastName : String
  fraction : String
  fractionId : Option String
  role : String
  actorId : String
  hasValidDate : Bool
deriving Repr, DecidableEq

/-! ## Query builder (`buildQuery`, `src/server.js` lines 40-69) -/

def BASE_API_URL : String := "https://gegevensmagazijn.tweedekamer.nl/OData/v4/2.0"

/-- The `params` array assembled by `buildQuery`: a `$filter` clause when
the filter list is non-empty, an `$expand` clause when the expand list is
non-empty, one `$key=value` per option whose value is neither undefined nor
null (modelled as `Option String`, in object-key insertion order), and a
final `$format=json`. -/
def buildQueryParams (filters expands : List String)
    (options : List (String × Option String)) : List String :=
  (if filters.length > 0 then ["$filter=" ++ joinSep " and " filters] else [])
    ++ (if expands.length > 0 then ["$expand=" ++ joinSep "," expands] else [])
    ++ options.filterMap (fun kv => kv.2.map (fun v => "$" ++ kv.1 ++ "=" ++ v))
    ++ ["$format=json"]

/-- `buildQuery(endpoint, filters, expands, options)`. -/
def buildQuery (endpoint : String) (filters : List String := [])
    (expands : List String := [])
    (options : List (String × Option String) := []) : String :=
  let params := buildQueryParams filters expands options
  let query := BASE_API_URL ++ "/" ++ endpoint
  if params.length > 0 then query ++ "?" ++ joinSep "&" params else query

/-! ## Route query construction (`/api/attendance`, `/api/activity/:id`,
`/api/stats`) -/

/-- Filter list built identically by the attendance and statistics routes
(`src/server.js` lines 94-106 and 227-239): the base deleted-exclusion
filter, then optional date-range and subject-substring filters guarded by
JS truthiness of the query parameters. -/
def routeFilters (dateFrom dateTo activityType : Option String) : List String :=
  ["verwijderd eq false"]
    ++ (if jsTruthy dateFrom then
          ["aanvangstijd ge " ++ dateFrom.getD "" ++ "T00:00:00Z"] else [])
    ++ (if jsTruthy dateTo then
          ["aanvangstijd le " ++ dateTo.getD "" ++ "T23:59:59Z"] else [])
    ++ (if jsTruthy activityType then
          ["contains(tolower(onderwerp), tolower(" ++ squote
            ++ activityType.getD "" ++ squote ++ "))"] else [])

/-- Data query of `/api/attendance` (lines 109-118). `limit`/`skip` are the
raw query-parameter strings; an absent parameter defaults to `1000` / `0`
(the JS destructuring defaults, stringified into the template literal). -/
def attendanceDataQuery (dateFrom dateTo activityType limit skip : Option String) : String :=
  buildQuery "Activiteit" (routeFilters dateFrom dateTo activityType)
    ["ActiviteitActor($expand=Persoon,Fractie)"]
    [("top", some (limit.getD "1000")), ("skip", some (skip.getD "0")),
      ("orderby", some "aanvangstijd desc")]

/-- Auxiliary total-count query of `/api/attendance` (line 153). -/
def attendanceCountQuery (dateFrom dateTo activityType : Option String) : String :=
  buildQuery "Activiteit" (routeFilters dateFrom dateTo activityType) []
    [("count", some "true")]

/-- Single-activity query of `/api/activity/:id` (lines 193-195): key-based
endpoint, no filters, one expand. -/
def activityDetailQuery (id : String) : String :=
  buildQuery ("Activiteit/" ++ id) [] ["ActiviteitActor($expand=Persoon,Fractie)"]

/-- Activity-count query of `/api/stats` (line 242). -/
def statsCountQuery (dateFrom dateTo activityType : Option String) : String :=
  buildQuery "Activiteit" (routeFilters dateFrom dateTo activityType) []
    [("count", some "true"), ("top", some "0")]

/-- Sample query of `/api/stats` (lines 247-249): top 100, actor expansion
restricted to the participant relation. -/
def statsSampleQuery (dateFrom dateTo activityType : Option String) : String :=
  buildQuery "Activiteit" (routeFilters dateFrom dateTo activityType)
    ["ActiviteitActor($filter=relatie eq " ++ squote ++ "Deelnemer" ++ squote
      ++ ";$expand=Persoon,Fractie)"]
    [("top", some "100")]

/-- JS value of the destructured `skip` parameter: the number `0` when the
query parameter is absent, otherwise the raw string. -/
inductive JsStrNum where
  | str : String → JsStrNum
  | num : Int → JsStrNum
deriving Repr, DecidableEq

def skipParamValue (skip : Option String) : JsStrNum :=
  match skip with
  | none => .num 0
  | some s => .str s

/-- The guard `skip === 0 || skip === '0'` of the count-query block
(`src/server.js` line 151). -/
def shouldFetchCountQuery (skip : Option String) : Bool :=
  skipParamValue skip == .num 0 || skipParamValue skip == .str "0"

/-- `totalCount` reported in the attendance metadata: the count-query result
(`some n` on success, `none` when the count fetch failed) when the guard
holds, otherwise the initial `null`. -/
def attendanceTotalCount (skip : Option String) (countResult : Option Int) : Option Int :=
  if shouldFetchCountQuery skip then countResult else none

/-! ## Record flattener (`processAttendanceData`, lines 281-376) -/

/-- External date library: the ECMAScript `new Date(string)` parser
(`parse s` is `.ok none` for an Invalid Date, `.ok (some ms)` for a valid
instant, `.error e` for a thrown exception — the source wraps the date
block in `try`/`catch`) and the `nl-NL` locale formatters used via
`toLocaleDateString`/`toLocaleTimeString`. -/
structure DateLib where
  parse : String → Except String (Option Int)
  formatDate : Int → String
  formatTime : Int → String

/-- Result of the date block (lines 298-332): the JS `startTime` variable
(`none` = still `null`; `some t` = a `Date` object with time value `t`) and
the display strings, both initialised to `"Unknown"`. -/
structure DateBlockResult where
  startTime : Option (Option Int)
  activityDate : String
  activityTime : String
deriving Repr, DecidableEq

/-- The `try`-block over `dateStr = activity.Aanvangstijd || activity.Datum`:
nothing happens for a falsy `dateStr`; a thrown parse leaves every variable
at its initial value; an Invalid Date sets `startTime` but skips the
formatting; a valid instant sets all three. The dash-for-dash regex replace
applied to the formatted date in the source is the identity. -/
def dateBlock (lib : DateLib) (aanvangstijd datum : Option String) : DateBlockResult :=
  let dateStr := jsOr aanvangstijd datum
  if jsTruthy dateStr then
    match lib.parse (dateStr.getD "") with
    | .error _ => ⟨none, "Unknown", "Unknown"⟩
    | .ok none => ⟨some none, "Unknown", "Unknown"⟩
    | .ok (some ms) => ⟨some (some ms), lib.formatDate ms, lib.formatTime ms⟩
  else ⟨none, "Unknown", "Unknown"⟩

/-- One iteration of the inner `forEach` (lines 334-367): an actor without
a `Persoon` pushes nothing; otherwise one record is pushed. -/
def recordForActor (activity : Activiteit) (db : DateBlockResult)
    (hasValidDate : Bool) (actor : ActiviteitActor) : Option AttendanceRecord :=
  match actor.Persoon with
  | none => none
  | some p =>
      some
        { activityId := activity.Id
          activityTitle := jsOrD activity.Onderwerp "Unknown Activity"
          activityDate := db.activityDate
          activityTime := db.activityTime
          activityDateTime := jsOr activity.Aanvangstijd activity.Datum
          personId := p.Id
          personName :=
            joinSep " " (filterBoolean [p.Voornamen, p.Tussenvoegsel, p.Achternaam])
          personInitials := jsOrD p.Initialen ""
          personFirstName := jsOrD p.Voornamen ""
          personLastName :=
            joinSep " " (filterBoolean [p.Tussenvoegsel, p.Achternaam])
          fraction :=
            match actor.Fractie with
            | some f => f.NaamNL
            | none => "Unknown"
          fractionId := actor.Fractie.map (fun f => f.Id)
          role := jsOrD actor.Functie "Participant"
          actorId := actor.Id
          hasValidDate := hasValidDate }

/-- The skip guard of the outer `forEach` (line 290):
`!activity.ActiviteitActor || activity.ActiviteitActor.length === 0`. -/
def skipActivity (activity : Activiteit) : Bool :=
  match activity.ActiviteitActor with
  | none => true
  | some l => l.length == 0

/-- Records contributed by one non-skipped activity: the date block runs
once, then the inner `forEach` over the actor collection. -/
def processActivity (lib : DateLib) (activity : Activiteit) : List AttendanceRecord :=
  let db := dateBlock lib activity.Aanvangstijd activity.Datum
  let hasValidDate := db.startTime.isSome
  (activity.ActiviteitActor.getD []).filterMap (recordForActor activity db hasValidDate)

/-- `processAttendanceData(activities)`: the flat record list in activity
order, paired with the `activitiesWithoutActors` diagnostic counter. -/
def processAttendanceData (lib : DateLib) : List Activiteit → List AttendanceRecord × Nat
  | [] => ([], 0)
  | a :: rest =>
      let r := processAttendanceData lib rest
      if skipActivity a then (r.1, r.2 + 1)
      else (processActivity lib a ++ r.1, r.2)

/-! ## Shared demo inputs and helper lemmas -/

/-- A concrete instance of the external date library, with the parse result
the ECMAScript parser gives on the listed strings: the ISO instant of the
spec example parses to its epoch milliseconds; every other string is an
Invalid Date (`.ok none`), never a thrown exception. -/
def demoDateLib : DateLib where
  parse := fun s =>
    if s == "2024-03-15T14:30:00Z" then .ok (some 1710513000000) else .ok none
  formatDate := fun _ => "15-03-2024"
  formatTime := fun _ => "15:30"

/-- A date library whose parser always throws, exercising the catch path. -/
def throwingDateLib : DateLib where
  parse := fun _ => .error "boom"
  formatDate := fun _ => ""
  formatTime := fun _ => ""

def janVanDerBerg : Persoon :=
  ⟨"p1", some "Jan", some "van der", some "Berg", none⟩

def janBerg : Persoon :=
  ⟨"p2", some "Jan", none, some "Berg", some "J."⟩

def demoActorFull : ActiviteitActor :=
  ⟨"aa1", some janVanDerBerg, some ⟨"f1", "VVD"⟩, some "Voorzitter"⟩

def demoActorBare : ActiviteitActor :=
  ⟨"aa2", some janBerg, none, none⟩

def demoActorNoPerson : ActiviteitActor :=
  ⟨"aa3", none, some ⟨"f1", "VVD"⟩, some "Voorzitter"⟩

def demoActivity : Activiteit :=
  ⟨"A1", some "Debat", some "2024-03-15T14:30:00Z", none,
    some [demoActorFull, demoActorBare, demoActorNoPerson]⟩

def noDateActivity : Activiteit :=
  ⟨"A2", none, none, none, some [demoActorBare]⟩

def badDateActivity : Activiteit :=
  ⟨"A3", some "Debat", some "not-a-date", none, some [demoActorBare]⟩

def actorlessActivity : Activiteit := ⟨"A4", some "Leeg", none, none, some []⟩

theorem joinSep_cons_append (sep a : String) (l : List String) :
    ∃ r, joinSep sep (a :: l) = a ++ r := by
  cases l with
  | nil => exact ⟨"", by simp [joinSep]⟩
  | cons b bs =>
      exact ⟨sep ++ joinSep sep (b :: bs), by simp [joinSep, String.append_assoc]⟩

theorem length_filterMap_eq_countP (f : α → Option β) (l : List α) :
    (l.filterMap f).length = l.countP (fun x => (f x).isSome) := by
  induction l with
  | nil => rfl
  | cons x xs ih =>
      cases h : f x <;>
        simp [List.filterMap_cons, h, List.countP_cons, ih]

/-- A query built over a non-empty filter list starts with the endpoint URL
followed by a `$filter` clause whose first conjunct is the head filter. -/
theorem buildQuery_filter_head (endpoint f : String) (fs expands : List String)
    (options : List (String × Option String)) :
    ∃ r, buildQuery endpoint (f :: fs) expands options =
      BASE_API_URL ++ "/" ++ endpoint ++ "?$filter=" ++ f ++ r := by
  obtain ⟨r1, h1⟩ := joinSep_cons_append " and " f fs
  have hparams : buildQueryParams (f :: fs) expands options =
      ("$filter=" ++ joinSep " and " (f :: fs)) ::
        ((if expands.length > 0 then ["$expand=" ++ joinSep "," expands] else [])
          ++ options.filterMap (fun kv => kv.2.map (fun v => "$" ++ kv.1 ++ "=" ++ v))
          ++ ["$format=json"]) := by
    simp [buildQueryParams]
  obtain ⟨r2, h2⟩ := joinSep_cons_append "&"
    ("$filter=" ++ joinSep " and " (f :: fs))
    ((if expands.length > 0 then ["$expand=" ++ joinSep "," expands] else [])
      ++ options.filterMap (fun kv => kv.2.map (fun v => "$" ++ kv.1 ++ "=" ++ v))
      ++ ["$format=json"])
  refine ⟨r1 ++ r2, ?_⟩
  have hlen : (buildQueryParams (f :: fs) expands options).length > 0 := by
    rw [hparams]; simp
  unfold buildQuery
  rw [if_pos hlen, hparams, h2, h1]
  apply String.ext
  simp [String.data_append]

/-- The route filter list literally starts with the base deleted-exclusion
filter. -/
theorem routeFilters_head (dateFrom dateTo activityType : Option String) :
    ∃ rest, routeFilters dateFrom dateTo activityType =
      "verwijderd eq false" :: rest :=
  ⟨_, rfl⟩

/-! ## Claim C3: query-builder clause structure -/

/-- C3. `buildQuery` emits, after `endpoint?`, an ampersand-joined parameter
list consisting of: a single `$filter` clause joining the filters with
" and " in order (only when the filter list is non-empty), a single
comma-joined `$expand` clause (only when non-empty), one `$key=value` per
option whose value is present (absent values are omitted, insertion order
kept), and a final `$format=json`. On the spec's example the URL is the
stated literal, whose parameter list has exactly one `$filter`, one
`$expand`, `$top=10`, `$skip=0`, a trailing `$format=json`, and no
duplicates. -/
theorem buildQuery_clause_structure :
    (∀ (endpoint : String) (filters expands : List String)
        (options : List (String × Option String)),
      buildQuery endpoint filters expands options =
        BASE_API_URL ++ "/" ++ endpoint ++ "?" ++
          joinSep "&"
            ((if filters.length > 0 then
                ["$filter=" ++ joinSep " and " filters] else [])
              ++ (if expands.length > 0 then
                    ["$expand=" ++ joinSep "," expands] else [])
              ++ options.filterMap
                  (fun kv => kv.2.map (fun v => "$" ++ kv.1 ++ "=" ++ v))
              ++ ["$format=json"]))
    ∧ buildQuery "Activiteit" ["verwijderd eq false"]
        ["ActiviteitActor($expand=Persoon)"]
        [("top", some "10"), ("skip", some "0")] =
      "https://gegevensmagazijn.tweedekamer.nl/OData/v4/2.0/Activiteit?$filter=verwijderd eq false&$expand=ActiviteitActor($expand=Persoon)&$top=10&$skip=0&$format=json"
    ∧ buildQueryParams ["verwijderd eq false"] ["ActiviteitActor($expand=Persoon)"]
        [("top", some "10"), ("skip", some "0")] =
      ["$filter=verwijderd eq false", "$expand=ActiviteitActor($expand=Persoon)",
        "$top=10", "$skip=0", "$format=json"]
    ∧ (buildQueryParams ["verwijderd eq false"] ["ActiviteitActor($expand=Persoon)"]
        [("top", some "10"), ("skip", some "0")]).countP
          (fun p => "$filter=".data.isPrefixOf p.data) = 1
    ∧ (buildQueryParams ["verwijderd eq false"] ["ActiviteitActor($expand=Persoon)"]
        [("top", some "10"), ("skip", some "0")]).countP
          (fun p => "$expand=".data.isPrefixOf p.data) = 1
    ∧ (buildQueryParams ["verwijderd eq false"] ["ActiviteitActor($expand=Persoon)"]
        [("top", some "10"), ("skip", some "0")]).countP
          (fun p => p == "$top=10") = 1
    ∧ (buildQueryParams ["verwijderd eq false"] ["ActiviteitActor($expand=Persoon)"]
        [("top", some "10"), ("skip", some "0")]).countP
          (fun p => p == "$skip=0") = 1
    ∧ (buildQueryParams ["verwijderd eq false"] ["ActiviteitActor($expand=Persoon)"]
        [("top", some "10"), ("skip", some "0")]).getLast? = some "$format=json"
    ∧ (buildQueryParams ["verwijderd eq false"] ["ActiviteitActor($expand=Persoon)"]
        [("top", some "10"), ("skip", some "0")]).Nodup
    ∧ buildQueryParams [] [] [("top", none), ("skip", some "5")] =
        ["$skip=5", "$format=json"] := by
  refine ⟨?_, by decide, by decide, by decide, by decide, by decide, by decide,
    by decide, by decide, by decide⟩
  intro endpoint filters expands options
  have hlen : (buildQueryParams filters expands options).length > 0 := by
    simp [buildQueryParams]
  simp only [buildQuery]
  rw [if_pos hlen]
  rfl

/-! ## Claim C2: deleted-flag base filter across the calling routes -/

/-- C2 counterexample. The single-activity fetch over `Activiteit` builds
its query with an empty filter list: the resulting URL is exactly the
stated literal and contains no occurrence of `verwijderd`, so the claim
that every Activiteit fetch carries the base filter `verwijderd eq false`
fails on this route. -/
theorem activityDetailQuery_lacks_deleted_filter :
    activityDetailQuery "a7fbfbe6-48ee-4182-b9ed-f49d34be4eab" =
      "https://gegevensmagazijn.tweedekamer.nl/OData/v4/2.0/Activiteit/a7fbfbe6-48ee-4182-b9ed-f49d34be4eab?$expand=ActiviteitActor($expand=Persoon,Fractie)&$format=json"
    ∧ countOccS
        (activityDetailQuery "a7fbfbe6-48ee-4182-b9ed-f49d34be4eab")
        "verwijderd" = 0 := by
  constructor
  · simp only [activityDetailQuery, buildQuery]
    rw [if_pos (by decide : (buildQueryParams []
      ["ActiviteitActor($expand=Persoon,Fractie)"] []).length > 0)]
    decide
  · decide

/-- C2 (amended). Every entity-set query of the attendance and statistics
routes (data, count, and sample queries over `Activiteit`) starts with a
`$filter` clause whose first conjunct is `verwijderd eq false`; the
single-activity fetch by id, in contrast, passes an empty filter list, so
its URL carries only an `$expand` and `$format=json` and no `$filter` at
all. -/
theorem entitySet_queries_have_deleted_filter_detail_has_none :
    ∀ (dateFrom dateTo activityType limit skip : Option String) (id : String),
      (∃ r, attendanceDataQuery dateFrom dateTo activityType limit skip =
        "https://gegevensmagazijn.tweedekamer.nl/OData/v4/2.0/Activiteit?$filter=verwijderd eq false" ++ r)
      ∧ (∃ r, attendanceCountQuery dateFrom dateTo activityType =
        "https://gegevensmagazijn.tweedekamer.nl/OData/v4/2.0/Activiteit?$filter=verwijderd eq false" ++ r)
      ∧ (∃ r, statsCountQuery dateFrom dateTo activityType =
        "https://gegevensmagazijn.tweedekamer.nl/OData/v4/2.0/Activiteit?$filter=verwijderd eq false" ++ r)
      ∧ (∃ r, statsSampleQuery dateFrom dateTo activityType =
        "https://gegevensmagazijn.tweedekamer.nl/OData/v4/2.0/Activiteit?$filter=verwijderd eq false" ++ r)
      ∧ activityDetailQuery id =
          BASE_API_URL ++ "/" ++ ("Activiteit/" ++ id) ++ "?" ++
            joinSep "&" (buildQueryParams []
              ["ActiviteitActor($expand=Persoon,Fractie)"] [])
      ∧ buildQueryParams [] ["ActiviteitActor($expand=Persoon,Fractie)"] [] =
          ["$expand=ActiviteitActor($expand=Persoon,Fractie)", "$format=json"] := by
  intro dateFrom dateTo activityType limit skip id
  have hpre : BASE_API_URL ++ "/" ++ "Activiteit" ++ "?$filter=" ++ "verwijderd eq false" =
      "https://gegevensmagazijn.tweedekamer.nl/OData/v4/2.0/Activiteit?$filter=verwijderd eq false" := by
    decide
  refine ⟨?_, ?_, ?_, ?_, ?_, by decide⟩
  · obtain ⟨r, hr⟩ := buildQuery_filter_head "Activiteit" "verwijderd eq false"
      (routeFilters dateFrom dateTo activityType).tail
      ["ActiviteitActor($expand=Persoon,Fractie)"]
      [("top", some (limit.getD "1000")), ("skip", some (skip.getD "0")),
        ("orderby", some "aanvangstijd desc")]
    rw [hpre] at hr
    exact ⟨r, hr⟩
  · obtain ⟨r, hr⟩ := buildQuery_filter_head "Activiteit" "verwijderd eq false"
      (routeFilters dateFrom dateTo activityType).tail []
      [("count", some "true")]
    rw [hpre] at hr
    exact ⟨r, hr⟩
  · obtain ⟨r, hr⟩ := buildQuery_filter_head "Activiteit" "verwijderd eq false"
      (routeFilters dateFrom dateTo activityType).tail []
      [("count", some "true"), ("top", some "0")]
    rw [hpre] at hr
    exact ⟨r, hr⟩
  · obtain ⟨r, hr⟩ := buildQuery_filter_head "Activiteit" "verwijderd eq false"
      (routeFilters dateFrom dateTo activityType).tail
      ["ActiviteitActor($filter=relatie eq " ++ squote ++ "Deelnemer" ++ squote
        ++ ";$expand=Persoon,Fractie)"]
      [("top", some "100")]
    rw [hpre] at hr
    exact ⟨r, hr⟩
  · simp only [activityDetailQuery, buildQuery]
    rw [if_pos (by decide : (buildQueryParams []
      ["ActiviteitActor($expand=Persoon,Fractie)"] []).length > 0)]

/-! ## Claim C8: count query issued iff skip is zero -/

/-- C8. The auxiliary total-count query of the attendance handler is
attempted exactly when the `skip` query parameter is absent (JS default,
the number `0`) or the literal string `"0"`; when the guard fails the
reported `totalCount` stays `null`, and in particular `skip=50` issues no
count query. -/
theorem count_query_iff_skip_zero :
    ∀ (skip : Option String) (countResult : Option Int),
      (shouldFetchCountQuery skip = true ↔ skip = none ∨ skip = some "0")
      ∧ (shouldFetchCountQuery skip = false →
          attendanceTotalCount skip countResult = none)
      ∧ shouldFetchCountQuery (some "50") = false := by
  intro skip countResult
  refine ⟨?_, ?_, by decide⟩
  · cases skip with
    | none => simp [shouldFetchCountQuery, skipParamValue]
    | some s =>
        simp [shouldFetchCountQuery, skipParamValue]
  · intro h
    simp [attendanceTotalCount, h]

/-- Witness for C8 at `skip = "50"`. -/
theorem count_query_iff_skip_zero_witness :
    attendanceTotalCount (some "50") (some 7) = none :=
  (count_query_iff_skip_zero (some "50") (some 7)).2.1 (by decide)

/-! ## Concrete flattened records (values of `processActivity` on the demo
activities, used in the code-bug evaluation and the witnesses) -/

def demoFullRecord : AttendanceRecord :=
  { activityId := "A1", activityTitle := "Debat", activityDate := "15-03-2024"
    activityTime := "15:30", activityDateTime := some "2024-03-15T14:30:00Z"
    personId := "p1", personName := "Jan van der Berg", personInitials := ""
    personFirstName := "Jan", personLastName := "van der Berg"
    fraction := "VVD", fractionId := some "f1", role := "Voorzitter"
    actorId := "aa1", hasValidDate := true }

def noDateRecord : AttendanceRecord :=
  { activityId := "A2", activityTitle := "Unknown Activity"
    activityDate := "Unknown", activityTime := "Unknown"
    activityDateTime := none, personId := "p2", personName := "Jan Berg"
    personInitials := "J.", personFirstName := "Jan", personLastName := "Berg"
    fraction := "Unknown", fractionId := none, role := "Participant"
    actorId := "aa2", hasValidDate := false }

def demoBareRecord : AttendanceRecord :=
  { activityId := "A1", activityTitle := "Debat", activityDate := "15-03-2024"
    activityTime := "15:30", activityDateTime := some "2024-03-15T14:30:00Z"
    personId := "p2", personName := "Jan Berg", personInitials := "J."
    personFirstName := "Jan", personLastName := "Berg"
    fraction := "Unknown", fractionId := none, role := "Participant"
    actorId := "aa2", hasValidDate := true }

def badDateRecord : AttendanceRecord :=
  { activityId := "A3", activityTitle := "Debat"
    activityDate := "Unknown", activityTime := "Unknown"
    activityDateTime := some "not-a-date", personId := "p2"
    personName := "Jan Berg", personInitials := "J.", personFirstName := "Jan"
    personLastName := "Berg", fraction := "Unknown", fractionId := none
    role := "Participant", actorId := "aa2", hasValidDate := true }

/-! ## Flattener helper lemmas -/

/-- Every record of `processActivity` carries the display date/time and the
`hasValidDate` flag computed once by the activity's date block. -/
theorem mem_processActivity_date_fields (lib : DateLib) (a : Activiteit)
    (r : AttendanceRecord) (hr : r ∈ processActivity lib a) :
    r.activityDate = (dateBlock lib a.Aanvangstijd a.Datum).activityDate
    ∧ r.activityTime = (dateBlock lib a.Aanvangstijd a.Datum).activityTime
    ∧ r.hasValidDate = (dateBlock lib a.Aanvangstijd a.Datum).startTime.isSome := by
  simp only [processActivity, List.mem_filterMap] at hr
  obtain ⟨ac, _, hrec⟩ := hr
  cases hp : ac.Persoon with
  | none => simp [recordForActor, hp] at hrec
  | some p =>
      simp only [recordForActor, hp, Option.some.injEq] at hrec
      subst hrec
      exact ⟨rfl, rfl, rfl⟩

/-- A thrown date parse leaves the date block at its initial values. -/
theorem dateBlock_of_parse_error (lib : DateLib) (aan dat : Option String)
    (e : String) (he : lib.parse ((jsOr aan dat).getD "") = .error e) :
    dateBlock lib aan dat = ⟨none, "Unknown", "Unknown"⟩ := by
  by_cases h : jsTruthy (jsOr aan dat) = true
  · simp [dateBlock, h, he]
  · simp only [dateBlock]
    rw [if_neg h]

/-- A falsy `dateStr` (both date fields absent or empty) leaves the date
block at its initial values. -/
theorem dateBlock_of_no_date (lib : DateLib) (aan dat : Option String)
    (h : jsTruthy (jsOr aan dat) = false) :
    dateBlock lib aan dat = ⟨none, "Unknown", "Unknown"⟩ := by
  simp [dateBlock, h]

/-- `processActivity` yields one record per actor that has a person. -/
theorem length_processActivity (lib : DateLib) (a : Activiteit) :
    (processActivity lib a).length =
      (a.ActiviteitActor.getD []).countP (fun ac => ac.Persoon.isSome) := by
  simp only [processActivity]
  rw [length_filterMap_eq_countP]
  refine List.countP_congr (fun ac _ => ?_)
  cases hp : ac.Persoon <;> simp [recordForActor, hp]

/-! ## Claim C1: date parsing vs `hasValidDate` (code-bug evaluation) -/

/-- C1 evaluation at the failing input. For an activity whose date string
is present but does not parse to a valid instant (`Aanvangstijd =
"not-a-date"`: the parser returns an Invalid Date, a truthy object), the
emitted record displays `activityDate`/`activityTime` `"Unknown"` yet has
`hasValidDate = true`, because the source computes `hasValidDate` as
`!!startTime` (object presence) instead of the `isNaN` validity test it
used for the display fields. The surrounding conjuncts show the claim's
other cases do behave as stated: a valid parse gives formatted non-Unknown
fields with `hasValidDate = true`, and absent date fields give `"Unknown"`
with `hasValidDate = false`. -/
theorem invalid_date_unknown_display_but_hasValidDate_true :
    processAttendanceData demoDateLib [badDateActivity] = ([badDateRecord], 0)
    ∧ badDateRecord.activityDate = "Unknown"
    ∧ badDateRecord.activityTime = "Unknown"
    ∧ badDateRecord.hasValidDate = true
    ∧ processActivity demoDateLib demoActivity = [demoFullRecord, demoBareRecord]
    ∧ demoFullRecord.activityDate = "15-03-2024"
    ∧ demoFullRecord.hasValidDate = true
    ∧ processActivity demoDateLib noDateActivity = [noDateRecord]
    ∧ noDateRecord.activityDate = "Unknown"
    ∧ noDateRecord.hasValidDate = false := by
  decide

/-! ## Claim C4: actorless activities are skipped and counted -/

/-- C4. Prepending an activity whose actor collection is absent or empty
leaves the record list unchanged and increments the skipped-activity
counter by exactly one; an activity with at least one actor contributes
its records and leaves the counter unchanged. -/
theorem flattener_skips_actorless_activities :
    ∀ (lib : DateLib) (a : Activiteit) (rest : List Activiteit),
      (a.ActiviteitActor = none ∨ a.ActiviteitActor = some [] →
        processAttendanceData lib (a :: rest) =
          ((processAttendanceData lib rest).1,
            (processAttendanceData lib rest).2 + 1))
      ∧ (∀ x l, a.ActiviteitActor = some (x :: l) →
          processAttendanceData lib (a :: rest) =
            (processActivity lib a ++ (processAttendanceData lib rest).1,
              (processAttendanceData lib rest).2)) := by
  intro lib a rest
  constructor
  · intro h
    have hskip : skipActivity a = true := by
      rcases h with h | h <;> simp [skipActivity, h]
    simp [processAttendanceData, hskip]
  · intro x l h
    have hskip : skipActivity a = false := by simp [skipActivity, h]
    simp [processAttendanceData, hskip]

/-- Witness for C4: an empty actor collection only bumps the counter; a
one-actor activity only contributes records. -/
theorem flattener_skips_actorless_activities_witness :
    processAttendanceData demoDateLib [actorlessActivity] =
      ((processAttendanceData demoDateLib []).1,
        (processAttendanceData demoDateLib []).2 + 1)
    ∧ processAttendanceData demoDateLib [noDateActivity] =
        (processActivity demoDateLib noDateActivity ++
          (processAttendanceData demoDateLib []).1,
          (processAttendanceData demoDateLib []).2) :=
  ⟨(flattener_skips_actorless_activities demoDateLib actorlessActivity []).1
      (Or.inr rfl),
    (flattener_skips_actorless_activities demoDateLib noDateActivity []).2
      demoActorBare [] rfl⟩

/-! ## Claim C5: actors without a person emit nothing -/

/-- C5. An actor without an attached person produces no record (and no
error: `recordForActor` is a total function), and every record of an
activity's output arises from some actor of that activity that does have
an attached person. -/
theorem flattener_requires_person :
    ∀ (lib : DateLib) (activity : Activiteit) (db : DateBlockResult)
      (hv : Bool) (actor : ActiviteitActor),
      (actor.Persoon = none → recordForActor activity db hv actor = none)
      ∧ (∀ r, r ∈ processActivity lib activity →
          ∃ ac ∈ activity.ActiviteitActor.getD [], ∃ p, ac.Persoon = some p ∧
            recordForActor activity
              (dateBlock lib activity.Aanvangstijd activity.Datum)
              ((dateBlock lib activity.Aanvangstijd activity.Datum).startTime.isSome)
              ac = some r) := by
  intro lib activity db hv actor
  constructor
  · intro h
    simp [recordForActor, h]
  · intro r hr
    simp only [processActivity, List.mem_filterMap] at hr
    obtain ⟨ac, hac, hrec⟩ := hr
    refine ⟨ac, hac, ?_⟩
    cases hp : ac.Persoon with
    | none => simp [recordForActor, hp] at hrec
    | some p => exact ⟨p, rfl, hrec⟩

/-- Witness for C5: the person-less demo actor emits nothing, and the one
record of the no-date demo activity comes from its actor with a person. -/
theorem flattener_requires_person_witness :
    recordForActor noDateActivity ⟨none, "Unknown", "Unknown"⟩ false
      demoActorNoPerson = none
    ∧ ∃ ac ∈ noDateActivity.ActiviteitActor.getD [], ∃ p,
        ac.Persoon = some p ∧
        recordForActor noDateActivity
          (dateBlock demoDateLib noDateActivity.Aanvangstijd noDateActivity.Datum)
          ((dateBlock demoDateLib noDateActivity.Aanvangstijd
            noDateActivity.Datum).startTime.isSome)
          ac = some noDateRecord :=
  ⟨(flattener_requires_person demoDateLib noDateActivity
      ⟨none, "Unknown", "Unknown"⟩ false demoActorNoPerson).1 rfl,
    (flattener_requires_person demoDateLib noDateActivity
      ⟨none, "Unknown", "Unknown"⟩ false demoActorNoPerson).2 noDateRecord
      (by decide)⟩

/-! ## Claim C6: name construction -/

/-- C6. Every emitted record's `personName` is the space-join of first
name, middle-name particle and last name with absent/empty parts filtered
out, and `personLastName` is the space-join of particle and last name under
the same rule; on the spec's two example persons this gives
"Jan van der Berg" and "Jan Berg" (no double space). -/
theorem flattener_name_construction :
    (∀ (activity : Activiteit) (db : DateBlockResult) (hv : Bool)
        (actor : ActiviteitActor) (p : Persoon) (r : AttendanceRecord),
      actor.Persoon = some p → recordForActor activity db hv actor = some r →
        r.personName =
          joinSep " " (filterBoolean [p.Voornamen, p.Tussenvoegsel, p.Achternaam])
        ∧ r.personLastName =
          joinSep " " (filterBoolean [p.Tussenvoegsel, p.Achternaam]))
    ∧ joinSep " " (filterBoolean [some "Jan", some "van der", some "Berg"]) =
        "Jan van der Berg"
    ∧ joinSep " " (filterBoolean [some "Jan", none, some "Berg"]) = "Jan Berg"
    ∧ demoFullRecord.personName = "Jan van der Berg"
    ∧ demoFullRecord.personLastName = "van der Berg"
    ∧ noDateRecord.personName = "Jan Berg"
    ∧ noDateRecord.personLastName = "Berg" := by
  refine ⟨?_, by decide, by decide, by decide, by decide, by decide, by decide⟩
  intro activity db hv actor p r hp hrec
  simp only [recordForActor, hp, Option.some.injEq] at hrec
  subst hrec
  exact ⟨rfl, rfl⟩

/-- Witness for C6 on the "Jan van der Berg" actor. -/
theorem flattener_name_construction_witness :
    demoFullRecord.personName =
      joinSep " " (filterBoolean
        [janVanDerBerg.Voornamen, janVanDerBerg.Tussenvoegsel,
          janVanDerBerg.Achternaam])
    ∧ demoFullRecord.personLastName =
      joinSep " " (filterBoolean
        [janVanDerBerg.Tussenvoegsel, janVanDerBerg.Achternaam]) :=
  flattener_name_construction.1 demoActivity
    (dateBlock demoDateLib demoActivity.Aanvangstijd demoActivity.Datum) true
    demoActorFull janVanDerBerg demoFullRecord rfl (by decide)

/-! ## Claim C7: role and fraction defaults -/

/-- C7. For every emitted record: `role` is the actor's functional label
when it is present (JS-truthy, i.e. non-empty — the empty-string case is
settled separately with the other falsy defaults) and `"Participant"` when
absent; `fraction` is the attached Fractie's display name when present and
`"Unknown"` otherwise; `fractionId` is the Fractie's identifier when
present and `null` otherwise. -/
theorem flattener_role_and_fraction_defaults :
    ∀ (activity : Activiteit) (db : DateBlockResult) (hv : Bool)
      (actor : ActiviteitActor) (p : Persoon) (r : AttendanceRecord),
      actor.Persoon = some p → recordForActor activity db hv actor = some r →
        (actor.Functie = none → r.role = "Participant")
        ∧ (∀ s, actor.Functie = some s → s ≠ "" → r.role = s)
        ∧ (∀ f, actor.Fractie = some f →
            r.fraction = f.NaamNL ∧ r.fractionId = some f.Id)
        ∧ (actor.Fractie = none →
            r.fraction = "Unknown" ∧ r.fractionId = none) := by
  intro activity db hv actor p r hp hrec
  simp only [recordForActor, hp, Option.some.injEq] at hrec
  subst hrec
  refine ⟨?_, ?_, ?_, ?_⟩
  · intro h
    simp [jsOrD, jsTruthy, h]
  · intro s h hs
    simp [jsOrD, jsTruthy, h, hs]
  · intro f h
    simp [h]
  · intro h
    simp [h]

/-- Witness for C7: defaults on the bare actor, explicit label and group on
the full actor. -/
theorem flattener_role_and_fraction_defaults_witness :
    (noDateRecord.role = "Participant"
      ∧ noDateRecord.fraction = "Unknown" ∧ noDateRecord.fractionId = none)
    ∧ (demoFullRecord.role = "Voorzitter"
      ∧ demoFullRecord.fraction = "VVD"
      ∧ demoFullRecord.fractionId = some "f1") := by
  have t1 := flattener_role_and_fraction_defaults noDateActivity
    (dateBlock demoDateLib noDateActivity.Aanvangstijd noDateActivity.Datum)
    false demoActorBare janBerg noDateRecord rfl (by decide)
  have t2 := flattener_role_and_fraction_defaults demoActivity
    (dateBlock demoDateLib demoActivity.Aanvangstijd demoActivity.Datum)
    true demoActorFull janVanDerBerg demoFullRecord rfl (by decide)
  exact ⟨⟨t1.1 rfl, (t1.2.2.2 rfl).1, (t1.2.2.2 rfl).2⟩,
    ⟨t2.2.1 "Voorzitter" rfl (by decide),
      (t2.2.2.1 ⟨"f1", "VVD"⟩ rfl).1, (t2.2.2.1 ⟨"f1", "VVD"⟩ rfl).2⟩⟩

/-! ## Claim C10: undocumented falsy-value defaults -/

def emptyFieldsPerson : Persoon := ⟨"p3", some "", none, some "Berg", some ""⟩

def emptyFieldsActor : ActiviteitActor :=
  ⟨"aa4", some emptyFieldsPerson, none, some ""⟩

def emptyFieldsActivity : Activiteit :=
  ⟨"A6", some "", none, none, some [emptyFieldsActor]⟩

def emptyFieldsRecord : AttendanceRecord :=
  { activityId := "A6", activityTitle := "Unknown Activity"
    activityDate := "Unknown", activityTime := "Unknown"
    activityDateTime := none, personId := "p3", personName := "Berg"
    personInitials := "", personFirstName := "", personLastName := "Berg"
    fraction := "Unknown", fractionId := none, role := "Participant"
    actorId := "aa4", hasValidDate := false }

/-- C10. The default substitutions trigger on every falsy source value,
not only on absent ones: an absent or empty subject yields the title
`"Unknown Activity"`, absent or empty initials/first-name fields yield the
empty string, and an empty-string functional label also yields role
`"Participant"`. -/
theorem flattener_falsy_defaults :
    ∀ (activity : Activiteit) (db : DateBlockResult) (hv : Bool)
      (actor : ActiviteitActor) (p : Persoon) (r : AttendanceRecord),
      actor.Persoon = some p → recordForActor activity db hv actor = some r →
        (activity.Onderwerp = none ∨ activity.Onderwerp = some "" →
          r.activityTitle = "Unknown Activity")
        ∧ (p.Initialen = none ∨ p.Initialen = some "" →
          r.personInitials = "")
        ∧ (p.Voornamen = none ∨ p.Voornamen = some "" →
          r.personFirstName = "")
        ∧ (actor.Functie = some "" → r.role = "Participant") := by
  intro activity db hv actor p r hp hrec
  simp only [recordForActor, hp, Option.some.injEq] at hrec
  subst hrec
  refine ⟨?_, ?_, ?_, ?_⟩
  · rintro (h | h) <;> simp [jsOrD, jsTruthy, h]
  · rintro (h | h) <;> simp [jsOrD, jsTruthy, h]
  · rintro (h | h) <;> simp [jsOrD, jsTruthy, h]
  · intro h
    simp [jsOrD, jsTruthy, h]

/-- Witness for C10 on an actor whose subject, initials, first name and
functional label are all the empty string. -/
theorem flattener_falsy_defaults_witness :
    emptyFieldsRecord.activityTitle = "Unknown Activity"
    ∧ emptyFieldsRecord.personInitials = ""
    ∧ emptyFieldsRecord.personFirstName = ""
    ∧ emptyFieldsRecord.role = "Participant" := by
  have t := flattener_falsy_defaults emptyFieldsActivity
    (dateBlock demoDateLib emptyFieldsActivity.Aanvangstijd
      emptyFieldsActivity.Datum)
    false emptyFieldsActor emptyFieldsPerson emptyFieldsRecord rfl (by decide)
  exact ⟨t.1 (Or.inr rfl), t.2.1 (Or.inr rfl), t.2.2.1 (Or.inr rfl),
    t.2.2.2 rfl⟩

/-! ## Claim C9: the flattener is total and degrades gracefully -/

/-- C9. `processAttendanceData` is a total function — on every input list,
with any behaviour of the external date library (including a throwing
parser), it returns a record list and a skip count, with exactly one record
per (non-skipped activity, actor-with-person) pair and one count unit per
skipped activity; and the anomalies degrade locally: an activity with no
usable date string, or whose date parse throws (the caught exception path),
yields records with `"Unknown"` display fields and `hasValidDate = false`
rather than failing the batch. -/
theorem flattener_total_and_degrades :
    ∀ (lib : DateLib) (acts : List Activiteit),
      (processAttendanceData lib acts).1.length =
        ((acts.filter (fun a => !skipActivity a)).map
          (fun a => (a.ActiviteitActor.getD []).countP
            (fun ac => ac.Persoon.isSome))).sum
      ∧ (processAttendanceData lib acts).2 =
          (acts.filter (fun a => skipActivity a)).length
      ∧ ∀ (a : Activiteit) (r : AttendanceRecord), r ∈ processActivity lib a →
          (jsTruthy (jsOr a.Aanvangstijd a.Datum) = false →
            r.activityDate = "Unknown" ∧ r.activityTime = "Unknown" ∧
              r.hasValidDate = false)
          ∧ (∀ e, lib.parse ((jsOr a.Aanvangstijd a.Datum).getD "") =
                .error e →
              r.activityDate = "Unknown" ∧ r.activityTime = "Unknown" ∧
                r.hasValidDate = false) := by
  intro lib acts
  refine ⟨?_, ?_, ?_⟩
  · induction acts with
    | nil => simp [processAttendanceData]
    | cons a rest ih =>
        by_cases h : skipActivity a
        · simp [processAttendanceData, h, ih]
        · simp [processAttendanceData, h, ih, length_processActivity]
  · induction acts with
    | nil => simp [processAttendanceData]
    | cons a rest ih =>
        by_cases h : skipActivity a
        · simp [processAttendanceData, h, ih]
        · simp [processAttendanceData, h, ih]
  · intro a r hr
    obtain ⟨hd, ht, hv⟩ := mem_processActivity_date_fields lib a r hr
    constructor
    · intro h
      rw [dateBlock_of_no_date lib a.Aanvangstijd a.Datum h] at hd ht hv
      exact ⟨hd, ht, hv⟩
    · intro e he
      rw [dateBlock_of_parse_error lib a.Aanvangstijd a.Datum e he] at hd ht hv
      exact ⟨hd, ht, hv⟩

/-- Witness for C9: a batch mixing a skipped activity, a missing date and a
throwing parser still flattens, and the affected records carry the
placeholder values. -/
theorem flattener_total_and_degrades_witness :
    (processAttendanceData throwingDateLib
      [actorlessActivity, noDateActivity, badDateActivity]).1.length = 2
    ∧ (processAttendanceData throwingDateLib
      [actorlessActivity, noDateActivity, badDateActivity]).2 = 1
    ∧ (noDateRecord.activityDate = "Unknown"
      ∧ noDateRecord.activityTime = "Unknown"
      ∧ noDateRecord.hasValidDate = false) := by
  have t := flattener_total_and_degrades throwingDateLib
    [actorlessActivity, noDateActivity, badDateActivity]
  refine ⟨?_, ?_, ?_⟩
  · rw [t.1]; decide
  · rw [t.2.1]; decide
  · exact (t.2.2 noDateActivity noDateRecord (by decide)).1 (by decide)
